import Mathlib

set_option autoImplicit false
set_option maxRecDepth 8000

/-!
Verification of the signal-conditioning pipeline of
`server/analytics/modules/sensor/Sensor.py` (Deep-Spying).

The Python source is embedded shallowly: floating-point arithmetic is
modelled by exact rationals, numpy arrays by lists, and a stage that could
raise a Python exception returns `Except SensorError`.  The source is
Python 2, so `window_size / 2` is integer division and a negative slice
bound counts from the end of the array.
-/

namespace DeepSpying

/-- Error taxonomy of the pipeline (spec section 7).  The Python source in
`Sensor.py` raises none of these itself; the stage that calls into the
external `scipy.signal.butter` surfaces its parameter error as
`invalidFilterParameters`. -/
inductive SensorError where
  | invalidInput
  | parseError
  | invalidFilterParameters
  | invalidParameters
  | ioFailure
deriving DecidableEq

/-- The `btype` argument of the band filter: low-pass or high-pass. -/
inductive FilterType where
  | lowpass
  | highpass
deriving DecidableEq

/-- One iteration of the loop body of `Sensor.get_kalman_filter_estimate`
(Sensor.py lines 113-120): from the previous a-posteriori (estimate, error)
pair and the current measurement, produce the next pair.  `q` is
`self.process_variance_q` and `r` is `self.measurement_variance_estimate`. -/
def kalmanStep (q r est err x : ℚ) : ℚ × ℚ :=
  let aPrioriError := err + q
  let gain := aPrioriError / (aPrioriError + r)
  (est + gain * (x - est), (1 - gain) * aPrioriError)

/-- The loop of `get_kalman_filter_estimate` over indices `1..n-1`, as a scan
carrying the previous (estimate, error) pair. -/
def kalmanScan (q r : ℚ) (est err : ℚ) : List ℚ → List (ℚ × ℚ)
  | [] => []
  | x :: xs =>
    let p := kalmanStep q r est err x
    p :: kalmanScan q r p.1 p.2 xs

/-- The `(a_posteriori_estimate[i], a_posteriori_error_estimate[i])` pairs
computed by `Sensor.get_kalman_filter_estimate`: index 0 holds the fixed
priors `(0, 1)`, the later entries follow the loop.  (On empty input the
Python code raises IndexError at `a_posteriori_estimate[0] = 0.0`; no claim
concerns that case and the empty list is returned here.) -/
def kalmanPairs (q r : ℚ) (data : List ℚ) : List (ℚ × ℚ) :=
  match data with
  | [] => []
  | _ :: rest => (0, 1) :: kalmanScan q r 0 1 rest

/-- The a-posteriori error sequence of the Kalman recursion. -/
def kalmanErrors (q r : ℚ) (data : List ℚ) : List ℚ :=
  (kalmanPairs q r data).map Prod.snd

/-- `Sensor.get_kalman_filter_estimate` (Sensor.py lines 102-123): the
a-posteriori estimate sequence.  The source performs no validation of `q`,
`r` or `data`. -/
def get_kalman_filter_estimate (q r : ℚ) (data : List ℚ) : List ℚ :=
  (kalmanPairs q r data).map Prod.fst

/-- The Kalman stage viewed through the pipeline's error channel: the source
performs no parameter validation and a zero gain denominator yields numpy
`inf`/`nan` values, not an exception, but on an empty input the assignment
`a_posteriori_estimate[0] = 0.0` raises IndexError, surfaced here as
`invalidInput`; on non-empty input the recursion's output is returned. -/
def get_kalman_filter_estimate_run (q r : ℚ) (data : List ℚ) :
    Except SensorError (List ℚ) :=
  match data with
  | [] => Except.error SensorError.invalidInput
  | _ :: _ => Except.ok (get_kalman_filter_estimate q r data)

theorem kalmanScan_length (q r : ℚ) : ∀ (xs : List ℚ) (est err : ℚ),
    (kalmanScan q r est err xs).length = xs.length
  | [], _, _ => rfl
  | x :: xs, est, err => by
    simp [kalmanScan, kalmanScan_length q r xs]

theorem kalmanPairs_length (q r : ℚ) (data : List ℚ) :
    (kalmanPairs q r data).length = data.length := by
  cases data with
  | nil => rfl
  | cons d rest => simp [kalmanPairs, kalmanScan_length]

theorem getD_map_fst :
    ∀ (l : List (ℚ × ℚ)) (i : ℕ), (l.map Prod.fst).getD i 0 = (l.getD i (0, 0)).1
  | [], _ => rfl
  | p :: l, 0 => rfl
  | p :: l, i + 1 => by
    simpa using getD_map_fst l i

theorem getD_map_snd :
    ∀ (l : List (ℚ × ℚ)) (i : ℕ), (l.map Prod.snd).getD i 0 = (l.getD i (0, 0)).2
  | [], _ => rfl
  | p :: l, 0 => rfl
  | p :: l, i + 1 => by
    simpa using getD_map_snd l i

theorem kalmanScan_chain (q r : ℚ) :
    ∀ (xs : List ℚ) (e0 r0 : ℚ) (i : ℕ), i < xs.length →
      (((e0, r0) :: kalmanScan q r e0 r0 xs).getD (i + 1) (0, 0)) =
        kalmanStep q r (((e0, r0) :: kalmanScan q r e0 r0 xs).getD i (0, 0)).1
          (((e0, r0) :: kalmanScan q r e0 r0 xs).getD i (0, 0)).2 (xs.getD i 0)
  | x :: xs, e0, r0, 0, _ => by
    simp [kalmanScan]
  | x :: xs, e0, r0, i + 1, h => by
    have ih := kalmanScan_chain q r xs (kalmanStep q r e0 r0 x).1
      (kalmanStep q r e0 r0 x).2 i (by simpa using Nat.lt_of_succ_lt_succ h)
    simpa [kalmanScan] using ih

theorem kalman_length (q r : ℚ) (data : List ℚ) :
    (get_kalman_filter_estimate q r data).length = data.length := by
  simp [get_kalman_filter_estimate, kalmanPairs_length]

theorem kalman_head (q r : ℚ) (d : ℚ) (rest : List ℚ) :
    (get_kalman_filter_estimate q r (d :: rest)).getD 0 0 = 0 := by
  simp [get_kalman_filter_estimate, kalmanPairs]

theorem kalman_err_head (q r : ℚ) (d : ℚ) (rest : List ℚ) :
    (kalmanErrors q r (d :: rest)).getD 0 0 = 1 := by
  simp [kalmanErrors, kalmanPairs]

theorem kalman_step_getD (q r : ℚ) (d : ℚ) (rest : List ℚ) (j : ℕ)
    (hj : j < rest.length) :
    (get_kalman_filter_estimate q r (d :: rest)).getD (j + 1) 0 =
      (get_kalman_filter_estimate q r (d :: rest)).getD j 0 +
        (((kalmanErrors q r (d :: rest)).getD j 0 + q) /
            (((kalmanErrors q r (d :: rest)).getD j 0 + q) + r)) *
          (rest.getD j 0 - (get_kalman_filter_estimate q r (d :: rest)).getD j 0) ∧
    (kalmanErrors q r (d :: rest)).getD (j + 1) 0 =
      (1 - (((kalmanErrors q r (d :: rest)).getD j 0 + q) /
          (((kalmanErrors q r (d :: rest)).getD j 0 + q) + r))) *
        ((kalmanErrors q r (d :: rest)).getD j 0 + q) := by
  have hchain := kalmanScan_chain q r rest 0 1 j hj
  simp only [get_kalman_filter_estimate, kalmanErrors, kalmanPairs, getD_map_fst,
    getD_map_snd]
  rw [hchain]
  exact ⟨by simp [kalmanStep], by simp [kalmanStep]⟩

/-- C1: for every input sequence of length at least 1 and every Q and R,
`get_kalman_filter_estimate` returns a same-length estimate sequence with
`estimate[0] = 0` and `error[0] = 1`, and for every `i` in `1..n-1`, with
`a_priori_error = error[i-1] + Q` and
`gain = a_priori_error / (a_priori_error + R)`,
`estimate[i] = estimate[i-1] + gain * (data[i] - estimate[i-1])` and
`error[i] = (1 - gain) * a_priori_error`. -/
theorem kalman_recursion (data : List ℚ) (q r : ℚ) (h : 1 ≤ data.length) :
    (get_kalman_filter_estimate q r data).length = data.length ∧
    (get_kalman_filter_estimate q r data).getD 0 0 = 0 ∧
    (kalmanErrors q r data).getD 0 0 = 1 ∧
    ∀ i, 1 ≤ i → i < data.length →
      (get_kalman_filter_estimate q r data).getD i 0 =
        (get_kalman_filter_estimate q r data).getD (i - 1) 0 +
          (((kalmanErrors q r data).getD (i - 1) 0 + q) /
              (((kalmanErrors q r data).getD (i - 1) 0 + q) + r)) *
            (data.getD i 0 - (get_kalman_filter_estimate q r data).getD (i - 1) 0) ∧
      (kalmanErrors q r data).getD i 0 =
        (1 - (((kalmanErrors q r data).getD (i - 1) 0 + q) /
            (((kalmanErrors q r data).getD (i - 1) 0 + q) + r))) *
          ((kalmanErrors q r data).getD (i - 1) 0 + q) := by
  obtain ⟨d, rest, rfl⟩ : ∃ d rest, data = d :: rest := by
    cases data with
    | nil => simp at h
    | cons d rest => exact ⟨d, rest, rfl⟩
  refine ⟨kalman_length q r _, kalman_head q r d rest, kalman_err_head q r d rest, ?_⟩
  intro i hi1 hin
  obtain ⟨j, rfl⟩ : ∃ j, i = j + 1 := ⟨i - 1, by omega⟩
  have hj : j < rest.length := by
    simpa using Nat.lt_of_succ_lt_succ hin
  have hstep := kalman_step_getD q r d rest j hj
  have hdata : (d :: rest).getD (j + 1) 0 = rest.getD j 0 := by simp
  simpa [hdata] using hstep

/-- Witness for C1 at `data = [0, 1]`, `Q = 0`, `R = 1`. -/
theorem kalman_recursion_witness :
    (1 ≤ ([(0 : ℚ), 1]).length) ∧
    ((get_kalman_filter_estimate 0 1 [(0 : ℚ), 1]).length = ([(0 : ℚ), 1]).length ∧
    (get_kalman_filter_estimate 0 1 [(0 : ℚ), 1]).getD 0 0 = 0 ∧
    (kalmanErrors 0 1 [(0 : ℚ), 1]).getD 0 0 = 1 ∧
    ∀ i, 1 ≤ i → i < ([(0 : ℚ), 1]).length →
      (get_kalman_filter_estimate 0 1 [(0 : ℚ), 1]).getD i 0 =
        (get_kalman_filter_estimate 0 1 [(0 : ℚ), 1]).getD (i - 1) 0 +
          (((kalmanErrors 0 1 [(0 : ℚ), 1]).getD (i - 1) 0 + 0) /
              (((kalmanErrors 0 1 [(0 : ℚ), 1]).getD (i - 1) 0 + 0) + 1)) *
            (([(0 : ℚ), 1]).getD i 0 -
              (get_kalman_filter_estimate 0 1 [(0 : ℚ), 1]).getD (i - 1) 0) ∧
      (kalmanErrors 0 1 [(0 : ℚ), 1]).getD i 0 =
        (1 - (((kalmanErrors 0 1 [(0 : ℚ), 1]).getD (i - 1) 0 + 0) /
            (((kalmanErrors 0 1 [(0 : ℚ), 1]).getD (i - 1) 0 + 0) + 1))) *
          ((kalmanErrors 0 1 [(0 : ℚ), 1]).getD (i - 1) 0 + 0)) :=
  ⟨by decide, kalman_recursion [(0 : ℚ), 1] 0 1 (by decide)⟩

/-- C3 counterexample: with `R = -2 ≤ 0`, `Q = 0` and `data = [0, 1]` the
Kalman stage does not fail with `InvalidParameters`: the recursion runs and
returns the computed estimates `[0, -1]` (gain `= 1 / (1 - 2) = -1`). -/
theorem kalman_no_validation_cex :
    get_kalman_filter_estimate_run 0 (-2) [(0 : ℚ), 1] = Except.ok [(0 : ℚ), -1] ∧
    get_kalman_filter_estimate_run 0 (-2) [(0 : ℚ), 1] ≠
      Except.error SensorError.invalidParameters := by
  have h : get_kalman_filter_estimate 0 (-2) [(0 : ℚ), 1] = [(0 : ℚ), -1] := by
    norm_num [get_kalman_filter_estimate, kalmanPairs, kalmanScan, kalmanStep]
  constructor
  · simp [get_kalman_filter_estimate_run, h]
  · simp [get_kalman_filter_estimate_run]

/-- C3 amended: `get_kalman_filter_estimate` performs no validation of the
measurement variance: for every `R ≤ 0` it runs the recursion anyway and
returns a same-length estimate sequence starting at 0 (when a gain
denominator hits zero, numpy produces `inf`/`nan` values instead of raising). -/
theorem kalman_runs_for_nonpositive_r (q r : ℚ) (data : List ℚ)
    (hr : r ≤ 0) (hn : 1 ≤ data.length) :
    get_kalman_filter_estimate_run q r data =
      Except.ok (get_kalman_filter_estimate q r data) ∧
    (get_kalman_filter_estimate q r data).length = data.length ∧
    (get_kalman_filter_estimate q r data).getD 0 0 = 0 := by
  obtain ⟨d, rest, rfl⟩ : ∃ d rest, data = d :: rest := by
    cases data with
    | nil => simp at hn
    | cons d rest => exact ⟨d, rest, rfl⟩
  exact ⟨rfl, kalman_length q r _, kalman_head q r d rest⟩

/-- Witness for the amended C3 at `Q = 0`, `R = -2`, `data = [0, 1]`. -/
theorem kalman_runs_for_nonpositive_r_witness :
    ((-2 : ℚ) ≤ 0) ∧ 1 ≤ ([(0 : ℚ), 1]).length ∧
    (get_kalman_filter_estimate_run 0 (-2) [(0 : ℚ), 1] =
      Except.ok (get_kalman_filter_estimate 0 (-2) [(0 : ℚ), 1]) ∧
    (get_kalman_filter_estimate 0 (-2) [(0 : ℚ), 1]).length = ([(0 : ℚ), 1]).length ∧
    (get_kalman_filter_estimate 0 (-2) [(0 : ℚ), 1]).getD 0 0 = 0) :=
  ⟨by norm_num, by decide,
    kalman_runs_for_nonpositive_r 0 (-2) [(0 : ℚ), 1] (by norm_num) (by decide)⟩

/-- The state of a `Sensor` object that the pipeline stages mutate:
timestamps, the three axis sequences, and the optional merged signal
(`self.mean_signal`, `None` until the merge stage runs). -/
structure SensorState where
  timestamp : List ℤ
  x : List ℚ
  y : List ℚ
  z : List ℚ
  mean_signal : Option (List ℚ)
deriving DecidableEq

/-- The numpy arithmetic mean (`np.mean`) in exact arithmetic.  On the empty
list numpy returns NaN; the junk value `0 / 0 = 0` stands in for it here, and
`normalize` never puts the empty-list mean into its output (mapping over the
empty axis yields the empty list), so no claim depends on it. -/
def npMean (xs : List ℚ) : ℚ := xs.sum / (xs.length : ℚ)

/-- `Sensor.normalize_axis` (lines 133-134): subtract the stored mean. -/
def normalize_axis (mean v : ℚ) : ℚ := v - mean

/-- One axis of `Sensor.normalize`: `self.mean = np.mean(axis)` followed by
`map(self.normalize_axis, axis)`. -/
def normalize_axis_map (xs : List ℚ) : List ℚ := xs.map (normalize_axis (npMean xs))

/-- `Sensor.normalize` (lines 125-131): subtracts each axis's own mean from
every sample of that axis.  The source raises no exception (an empty axis
gives a NaN mean that the empty map never uses), so the result is always
`Except.ok`. -/
def normalize (s : SensorState) : Except SensorError SensorState :=
  Except.ok { s with
    x := normalize_axis_map s.x
    y := normalize_axis_map s.y
    z := normalize_axis_map s.z }

/-- `Sensor.get_mean_signal` (lines 138-145): `mean[i] = (x[i]+y[i]+z[i])/3`
for `i` below `len(self.x)`. -/
def get_mean_signal (x y z : List ℚ) : List ℚ :=
  (List.range x.length).map fun i => (x.getD i 0 + y.getD i 0 + z.getD i 0) / 3

/-- Abstract interface to the external `scipy.signal` collaborator: the
median filter and the coefficient-design step of `butter`.  Their numerics
live outside this repository; every theorem about the repository's code
holds for an arbitrary instantiation. -/
structure Scipy where
  medfilt : List ℚ → ℕ → List ℚ
  butterCoeffs : ℕ → ℚ → FilterType → List ℚ × List ℚ

/-- Modelled from the spec: `scipy.signal.butter(order, wn, btype,
analog=False)` is external library code missing from the sources; per the
spec's BandFilter contract it must fail with `InvalidFilterParameters` when
the normalized cutoff is not strictly between 0 and 1 (scipy raises
ValueError there), and otherwise designs the digital Butterworth
coefficient vectors `(b, a)` of the given order and type. -/
def butter (sp : Scipy) (order : ℕ) (wn : ℚ) (btype : FilterType) :
    Except SensorError (List ℚ × List ℚ) :=
  if 0 < wn ∧ wn < 1 then Except.ok (sp.butterCoeffs order wn btype)
  else Except.error SensorError.invalidFilterParameters

/-- One output sample of `scipy.signal.lfilter`: the causal direct-form
recursion `a[0]*y[i] = sum b[k]*x[i-k] - sum a[k]*y[i-k] (k >= 1)` with zero
initial conditions, `ys` being the outputs already produced. -/
def lfilterNext (b a x ys : List ℚ) (i : ℕ) : ℚ :=
  (((List.range b.length).map fun k =>
      if k ≤ i then b.getD k 0 * x.getD (i - k) 0 else 0).sum -
    ((List.range a.length).map fun k =>
      if 1 ≤ k ∧ k ≤ i then a.getD k 0 * ys.getD (i - k) 0 else 0).sum) /
    a.getD 0 0

/-- `scipy.signal.lfilter(b, a, x)`: direct-form recursive filtering of the
whole sequence. -/
def lfilter (b a x : List ℚ) : List ℚ :=
  (List.range x.length).foldl (fun ys i => ys ++ [lfilterNext b a x ys i]) []

/-- `Sensor.apply_butter_filter` (lines 83-92): normalized cutoff
`CUTOFF_FREQUENCY / (0.5 * frequency)` with `CUTOFF_FREQUENCY = 0.5`, then
`signal.butter(6, cutoff, btype)` and `signal.lfilter`; a scipy error
propagates (the source itself performs no guard). -/
def apply_butter_filter (sp : Scipy) (frequency : ℚ) (ftype : FilterType)
    (data : List ℚ) : Except SensorError (List ℚ) :=
  let CUTOFF_FREQUENCY : ℚ := 1 / 2
  let critical : ℚ := (1 / 2 : ℚ) * frequency
  let normal_cutoff : ℚ := CUTOFF_FREQUENCY / critical
  match butter sp 6 normal_cutoff ftype with
  | Except.error e => Except.error e
  | Except.ok ba => Except.ok (lfilter ba.1 ba.2 data)

/-- Modelled from the spec: `scipy.signal.medfilt(x, kernel_size)` is
external library code missing from the sources; per the spec's taxonomy a
non-odd window size fails with `InvalidFilterParameters` (scipy raises
ValueError there), and an odd window applies the external median numerics
`Scipy.medfilt`. -/
def medfilt_run (sp : Scipy) (data : List ℚ) (window_size : ℕ) :
    Except SensorError (List ℚ) :=
  if window_size % 2 = 1 then Except.ok (sp.medfilt data window_size)
  else Except.error SensorError.invalidFilterParameters

/-- `Sensor.apply_median_filter` (lines 67-73): median-filters the three
axes, or only `mean_signal` when it is populated; a scipy error (non-odd
window) propagates. -/
def apply_median_filter (sp : Scipy) (window_size : ℕ) (s : SensorState) :
    Except SensorError SensorState :=
  match s.mean_signal with
  | none =>
    match medfilt_run sp s.x window_size with
    | Except.error e => Except.error e
    | Except.ok x2 =>
      match medfilt_run sp s.y window_size with
      | Except.error e => Except.error e
      | Except.ok y2 =>
        match medfilt_run sp s.z window_size with
        | Except.error e => Except.error e
        | Except.ok z2 => Except.ok { s with x := x2, y := y2, z := z2 }
  | some m =>
    match medfilt_run sp m window_size with
    | Except.error e => Except.error e
    | Except.ok m2 => Except.ok { s with mean_signal := some m2 }

/-- `Sensor.apply_filter` (lines 75-81): band-filters the three axes, or
only `mean_signal` when it is populated; a scipy error propagates. -/
def apply_filter (sp : Scipy) (sampling_frequency : ℚ) (ftype : FilterType)
    (s : SensorState) : Except SensorError SensorState :=
  match s.mean_signal with
  | none =>
    match apply_butter_filter sp sampling_frequency ftype s.x with
    | Except.error e => Except.error e
    | Except.ok x2 =>
      match apply_butter_filter sp sampling_frequency ftype s.y with
      | Except.error e => Except.error e
      | Except.ok y2 =>
        match apply_butter_filter sp sampling_frequency ftype s.z with
        | Except.error e => Except.error e
        | Except.ok z2 => Except.ok { s with x := x2, y := y2, z := z2 }
  | some m =>
    match apply_butter_filter sp sampling_frequency ftype m with
    | Except.error e => Except.error e
    | Except.ok m2 => Except.ok { s with mean_signal := some m2 }

/-- `Sensor.apply_kalman_filter` (lines 94-100): Kalman-smooths the three
axes, or only `mean_signal` when it is populated; the estimator's
IndexError on an empty signal propagates (see
`get_kalman_filter_estimate_run`). -/
def apply_kalman_filter (q r : ℚ) (s : SensorState) :
    Except SensorError SensorState :=
  match s.mean_signal with
  | none =>
    match get_kalman_filter_estimate_run q r s.x with
    | Except.error e => Except.error e
    | Except.ok x2 =>
      match get_kalman_filter_estimate_run q r s.y with
      | Except.error e => Except.error e
      | Except.ok y2 =>
        match get_kalman_filter_estimate_run q r s.z with
        | Except.error e => Except.error e
        | Except.ok z2 => Except.ok { s with x := x2, y := y2, z := z2 }
  | some m =>
    match get_kalman_filter_estimate_run q r m with
    | Except.error e => Except.error e
    | Except.ok m2 => Except.ok { s with mean_signal := some m2 }

theorem sum_map_sub (c : ℚ) : ∀ (xs : List ℚ),
    (xs.map fun v => v - c).sum = xs.sum - (xs.length : ℚ) * c
  | [] => by simp
  | a :: l => by
    have ih := sum_map_sub c l
    simp [ih]
    ring

theorem npMean_normalize_axis (xs : List ℚ) (h : xs ≠ []) :
    npMean (normalize_axis_map xs) = 0 := by
  have hn : (xs.length : ℚ) ≠ 0 := by
    have : 0 < xs.length := List.length_pos.mpr h
    exact_mod_cast this.ne'
  have hmap : normalize_axis_map xs = xs.map fun v => v - npMean xs := rfl
  have hsum : (normalize_axis_map xs).sum = 0 := by
    rw [hmap, sum_map_sub, npMean]
    field_simp
  have hlen : (normalize_axis_map xs).length = xs.length := by
    simp [normalize_axis_map]
  rw [npMean, hsum, hlen]
  simp

theorem getD_map_range (f : ℕ → ℚ) (n i : ℕ) (h : i < n) :
    ((List.range n).map f).getD i 0 = f i := by
  rw [List.getD_eq_getElem?_getD]
  simp [List.getElem?_map, List.getElem?_range, h]

/-- C8: for every stream with non-empty axes, `normalize` replaces each
sample value with the value minus the arithmetic mean of its own axis, so
the post-normalization mean of every axis is 0 in exact arithmetic. -/
theorem normalize_subtracts_mean (s s2 : SensorState)
    (hx : s.x ≠ []) (hy : s.y ≠ []) (hz : s.z ≠ [])
    (h : normalize s = Except.ok s2) :
    s2.x = s.x.map (fun v => v - npMean s.x) ∧
    s2.y = s.y.map (fun v => v - npMean s.y) ∧
    s2.z = s.z.map (fun v => v - npMean s.z) ∧
    npMean s2.x = 0 ∧ npMean s2.y = 0 ∧ npMean s2.z = 0 := by
  simp only [normalize, Except.ok.injEq] at h
  subst h
  exact ⟨rfl, rfl, rfl, npMean_normalize_axis s.x hx, npMean_normalize_axis s.y hy,
    npMean_normalize_axis s.z hz⟩

/-- Witness for C8 on the stream with axes `[1]`, `[2]`, `[3]`. -/
theorem normalize_subtracts_mean_witness :
    (([(1 : ℚ)]) ≠ ([] : List ℚ)) ∧
    normalize { timestamp := [0], x := [1], y := [2], z := [3], mean_signal := none } =
      Except.ok { timestamp := [0], x := [0], y := [0], z := [0], mean_signal := none } ∧
    (([(0 : ℚ)]) = ([(1 : ℚ)]).map (fun v => v - npMean [1]) ∧
    ([(0 : ℚ)]) = ([(2 : ℚ)]).map (fun v => v - npMean [2]) ∧
    ([(0 : ℚ)]) = ([(3 : ℚ)]).map (fun v => v - npMean [3]) ∧
    npMean [(0 : ℚ)] = 0 ∧ npMean [(0 : ℚ)] = 0 ∧ npMean [(0 : ℚ)] = 0) := by
  have hok : normalize { timestamp := [0], x := [1], y := [2], z := [3], mean_signal := none } =
      Except.ok { timestamp := [0], x := [0], y := [0], z := [0], mean_signal := none } := by
    norm_num [normalize, normalize_axis_map, normalize_axis, npMean]
  exact ⟨by simp, hok,
    normalize_subtracts_mean _ _ (by simp) (by simp) (by simp) hok⟩

/-- C9 counterexample: on the all-empty stream `normalize` produces output
(the unchanged empty stream) instead of failing with `InvalidInput`. -/
theorem normalize_empty_cex :
    normalize { timestamp := [], x := [], y := [], z := [], mean_signal := none } =
      Except.ok { timestamp := [], x := [], y := [], z := [], mean_signal := none } ∧
    normalize { timestamp := [], x := [], y := [], z := [], mean_signal := none } ≠
      Except.error SensorError.invalidInput := by
  constructor
  · rfl
  · simp [normalize]

/-- C9 amended: `normalize` performs no emptiness validation: on a stream
with an empty axis it succeeds, mapping the empty axis to the empty output
(the NaN mean of the empty axis is never used). -/
theorem normalize_empty_axis (s : SensorState) (hx : s.x = []) :
    ∃ s2, normalize s = Except.ok s2 ∧ s2.x = [] :=
  ⟨_, rfl, by simp [normalize_axis_map, hx]⟩

/-- Witness for the amended C9 on a stream whose x-axis is empty. -/
theorem normalize_empty_axis_witness :
    ({ timestamp := [], x := [], y := [1], z := [2], mean_signal := none } :
        SensorState).x = [] ∧
    ∃ s2, normalize { timestamp := [], x := [], y := [1], z := [2], mean_signal := none } =
        Except.ok s2 ∧ s2.x = [] :=
  ⟨rfl, normalize_empty_axis
    { timestamp := [], x := [], y := [1], z := [2], mean_signal := none } rfl⟩

/-- C7: for equal-length, positive-length axes, `get_mean_signal` returns a
same-length sequence with `mean_signal[i] = (x[i] + y[i] + z[i]) / 3`; in
particular `x = [3]`, `y = [0]`, `z = [0]` yields `[1]`. -/
theorem get_mean_signal_spec (x y z : List ℚ)
    (hxy : x.length = y.length) (hxz : x.length = z.length)
    (hpos : 0 < x.length) :
    (get_mean_signal x y z).length = x.length ∧
    (∀ i, i < x.length →
      (get_mean_signal x y z).getD i 0 = (x.getD i 0 + y.getD i 0 + z.getD i 0) / 3) ∧
    get_mean_signal [3] [0] [0] = [1] := by
  refine ⟨by simp [get_mean_signal], fun i hi => getD_map_range _ _ i hi, ?_⟩
  norm_num [get_mean_signal, List.range_succ]

/-- Witness for C7 at `x = [3]`, `y = [0]`, `z = [0]`. -/
theorem get_mean_signal_spec_witness :
    ([(3 : ℚ)]).length = ([(0 : ℚ)]).length ∧
    ([(3 : ℚ)]).length = ([(0 : ℚ)]).length ∧
    0 < ([(3 : ℚ)]).length ∧
    ((get_mean_signal [3] [0] [0]).length = ([(3 : ℚ)]).length ∧
    (∀ i, i < ([(3 : ℚ)]).length →
      (get_mean_signal [3] [0] [0]).getD i 0 =
        (([(3 : ℚ)]).getD i 0 + ([(0 : ℚ)]).getD i 0 + ([(0 : ℚ)]).getD i 0) / 3) ∧
    get_mean_signal [3] [0] [0] = [1]) :=
  ⟨rfl, rfl, by decide, get_mean_signal_spec [3] [0] [0] rfl rfl (by decide)⟩

/-- C5: once `mean_signal` is populated, the median-filter, band-filter and
Kalman-filter stages read and write only `mean_signal` and leave the three
axis sequences unchanged: each stage's whole result is its filter output on
`m` written into `mean_signal` with the axes untouched, and a failing
filter call produces no state at all (the exception propagates before any
write). -/
theorem merged_stages_preserve_axes (sp : Scipy) (w : ℕ) (f : ℚ)
    (ft : FilterType) (q r : ℚ) (s : SensorState) (m : List ℚ)
    (h : s.mean_signal = some m) :
    apply_median_filter sp w s =
      Except.map (fun m2 => { s with mean_signal := some m2 })
        (medfilt_run sp m w) ∧
    apply_filter sp f ft s =
      Except.map (fun m2 => { s with mean_signal := some m2 })
        (apply_butter_filter sp f ft m) ∧
    apply_kalman_filter q r s =
      Except.map (fun m2 => { s with mean_signal := some m2 })
        (get_kalman_filter_estimate_run q r m) := by
  refine ⟨?_, ?_, ?_⟩
  · cases hmf : medfilt_run sp m w with
    | error e => simp [apply_median_filter, h, hmf, Except.map]
    | ok m2 => simp [apply_median_filter, h, hmf, Except.map]
  · cases habf : apply_butter_filter sp f ft m with
    | error e => simp [apply_filter, h, habf, Except.map]
    | ok m2 => simp [apply_filter, h, habf, Except.map]
  · cases hk : get_kalman_filter_estimate_run q r m with
    | error e => simp [apply_kalman_filter, h, hk, Except.map]
    | ok m2 => simp [apply_kalman_filter, h, hk, Except.map]

/-- A trivial instantiation of the external scipy interface, used to
evaluate the theorems about the repository's code on concrete inputs. -/
def spId : Scipy :=
  { medfilt := fun l _ => l, butterCoeffs := fun _ _ _ => ([1], [1]) }

/-- A concrete stream whose `mean_signal` is populated. -/
def sMerged : SensorState :=
  { timestamp := [0], x := [1], y := [2], z := [3], mean_signal := some [2] }

/-- Witness for C5 on `sMerged` with window 3, frequency 4 and `Q = R = 1`. -/
theorem merged_stages_preserve_axes_witness :
    sMerged.mean_signal = some [2] ∧
    (apply_median_filter spId 3 sMerged =
      Except.map (fun m2 => { sMerged with mean_signal := some m2 })
        (medfilt_run spId [2] 3) ∧
    apply_filter spId 4 FilterType.lowpass sMerged =
      Except.map (fun m2 => { sMerged with mean_signal := some m2 })
        (apply_butter_filter spId 4 FilterType.lowpass [2]) ∧
    apply_kalman_filter 1 1 sMerged =
      Except.map (fun m2 => { sMerged with mean_signal := some m2 })
        (get_kalman_filter_estimate_run 1 1 [2])) :=
  ⟨rfl, merged_stages_preserve_axes spId 3 4 FilterType.lowpass 1 1 sMerged [2] rfl⟩

/-- The optional stage configuration attributes set on a `Sensor` object
before `process` runs (spec's FilterConfig). -/
structure FilterConfig where
  sampling_rate : Option ℚ
  filter_type : Option FilterType
  median_filter_window_size : Option ℕ
  process_variance_q : ℚ
  measurement_variance_estimate : ℚ

/-- The stages of `Sensor.process`, in the order the source invokes them. -/
inductive Stage where
  | normalize
  | merge
  | median
  | band
  | kalman
deriving DecidableEq

/-- Modelled from the spec: `UMath.get_frequency` lives in a module missing
from the provided sources; per the spec the band filter derives its
normalized cutoff as `0.5 / (0.5 * sampling_rate)`, so the frequency handed
to `apply_butter_filter` is the sampling rate itself. -/
def UMath_get_frequency (sampling_rate : ℚ) : ℚ := sampling_rate

/-- The merge step of `Sensor.process` (lines 40-41): when `merge_axis` is
requested, `self.mean_signal = self.get_mean_signal()`. -/
def merge_stage (merge_axis : Bool) (s : SensorState) :
    SensorState × List Stage :=
  if merge_axis then
    ({ s with mean_signal := some (get_mean_signal s.x s.y s.z) },
      [Stage.merge])
  else (s, [])

/-- The optional median step of `Sensor.process` (lines 43-45): runs
`apply_median_filter` exactly when the window size is set. -/
def median_stage (sp : Scipy) (cfg : FilterConfig) (s : SensorState) :
    Except SensorError (SensorState × List Stage) :=
  match cfg.median_filter_window_size with
  | some w =>
    match apply_median_filter sp w s with
    | Except.error e => Except.error e
    | Except.ok s2 => Except.ok (s2, [Stage.median])
  | none => Except.ok (s, [])

/-- The optional band step of `Sensor.process` (lines 47-49): runs
`apply_filter` exactly when both sampling rate and filter type are set. -/
def band_stage (sp : Scipy) (cfg : FilterConfig) (s : SensorState) :
    Except SensorError (SensorState × List Stage) :=
  match cfg.sampling_rate, cfg.filter_type with
  | some sr, some ft =>
    match apply_filter sp (UMath_get_frequency sr) ft s with
    | Except.error e => Except.error e
    | Except.ok s2 => Except.ok (s2, [Stage.band])
  | _, _ => Except.ok (s, [])

/-- `Sensor.process` (lines 35-56): normalize, optional merge, optional
median filter, optional band filter, Kalman filter, strictly in that order;
a stage whose config field is unset is skipped.  The `plot` calls are pure
notifications to the optional view and are omitted.  The result carries the
list of stages that ran, and a stage error aborts the run as a Python
exception would. -/
def process (sp : Scipy) (cfg : FilterConfig) (merge_axis : Bool)
    (s0 : SensorState) : Except SensorError (SensorState × List Stage) :=
  match normalize s0 with
  | Except.error e => Except.error e
  | Except.ok s1 =>
    let s2t2 := merge_stage merge_axis s1
    match median_stage sp cfg s2t2.1 with
    | Except.error e => Except.error e
    | Except.ok s3t3 =>
      match band_stage sp cfg s3t3.1 with
      | Except.error e => Except.error e
      | Except.ok s4t4 =>
        match apply_kalman_filter cfg.process_variance_q
            cfg.measurement_variance_estimate s4t4.1 with
        | Except.error e => Except.error e
        | Except.ok s5 =>
          Except.ok (s5,
            [Stage.normalize] ++ s2t2.2 ++ s3t3.2 ++ s4t4.2 ++ [Stage.kalman])

theorem apply_butter_filter_eq_ok (sp : Scipy) (fr : ℚ) (ft : FilterType)
    (data : List ℚ)
    (h0 : 0 < (1 / 2 : ℚ) / ((1 / 2 : ℚ) * fr))
    (h1 : (1 / 2 : ℚ) / ((1 / 2 : ℚ) * fr) < 1) :
    apply_butter_filter sp fr ft data =
      Except.ok (lfilter (sp.butterCoeffs 6 ((1 / 2 : ℚ) / ((1 / 2 : ℚ) * fr)) ft).1
        (sp.butterCoeffs 6 ((1 / 2 : ℚ) / ((1 / 2 : ℚ) * fr)) ft).2 data) := by
  simp only [apply_butter_filter, butter]
  rw [if_pos ⟨h0, h1⟩]

/-- A stream state on which the remaining pipeline stages cannot raise for
emptiness reasons: the three axes are non-empty, and so is the merged
signal when it is present. -/
def GoodState (s : SensorState) : Prop :=
  s.x ≠ [] ∧ s.y ≠ [] ∧ s.z ≠ [] ∧ ∀ m, s.mean_signal = some m → m ≠ []

theorem normalize_axis_map_ne_nil (xs : List ℚ) (h : xs ≠ []) :
    normalize_axis_map xs ≠ [] := by
  simp [normalize_axis_map, h]

theorem get_mean_signal_ne_nil (x y z : List ℚ) (h : x ≠ []) :
    get_mean_signal x y z ≠ [] := by
  intro hnil
  have h1 : (get_mean_signal x y z).length = x.length := by
    simp [get_mean_signal]
  rw [hnil] at h1
  exact h (List.length_eq_zero.mp h1.symm)

theorem lfilter_go_length (b a x : List ℚ) :
    ∀ (n : ℕ) (init : List ℚ),
      ((List.range n).foldl (fun ys i => ys ++ [lfilterNext b a x ys i])
          init).length = init.length + n
  | 0, init => by simp
  | n + 1, init => by
    rw [List.range_succ, List.foldl_append]
    simp only [List.foldl_cons, List.foldl_nil, List.length_append,
      List.length_cons, List.length_nil, lfilter_go_length b a x n init]
    omega

theorem lfilter_length (b a x : List ℚ) : (lfilter b a x).length = x.length := by
  have h := lfilter_go_length b a x x.length []
  simpa [lfilter] using h

theorem lfilter_ne_nil (b a x : List ℚ) (h : x ≠ []) :
    lfilter b a x ≠ [] := by
  intro hnil
  have h1 := lfilter_length b a x
  rw [hnil] at h1
  exact h (List.length_eq_zero.mp h1.symm)

theorem medfilt_run_odd (sp : Scipy) (data : List ℚ) (w : ℕ)
    (hw : w % 2 = 1) :
    medfilt_run sp data w = Except.ok (sp.medfilt data w) := by
  simp [medfilt_run, hw]

theorem medfilt_ne_nil (sp : Scipy)
    (hsp : ∀ (l : List ℚ) (w : ℕ), (sp.medfilt l w).length = l.length)
    (l : List ℚ) (w : ℕ) (h : l ≠ []) : sp.medfilt l w ≠ [] := by
  intro hnil
  have h1 := hsp l w
  rw [hnil] at h1
  exact h (List.length_eq_zero.mp h1.symm)

theorem get_kalman_run_ok (q r : ℚ) (data : List ℚ) (h : data ≠ []) :
    get_kalman_filter_estimate_run q r data =
      Except.ok (get_kalman_filter_estimate q r data) := by
  cases data with
  | nil => exact absurd rfl h
  | cons d rest => rfl

theorem apply_median_filter_ok (sp : Scipy) (w : ℕ) (s : SensorState)
    (hw : w % 2 = 1)
    (hsp : ∀ (l : List ℚ) (w2 : ℕ), (sp.medfilt l w2).length = l.length)
    (hg : GoodState s) :
    ∃ s2, apply_median_filter sp w s = Except.ok s2 ∧ GoodState s2 := by
  obtain ⟨hx, hy, hz, hm⟩ := hg
  cases hms : s.mean_signal with
  | none =>
    refine ⟨{ s with
                x := sp.medfilt s.x w
                y := sp.medfilt s.y w
                z := sp.medfilt s.z w }, ?_, medfilt_ne_nil sp hsp s.x w hx,
      medfilt_ne_nil sp hsp s.y w hy, medfilt_ne_nil sp hsp s.z w hz, ?_⟩
    · simp [apply_median_filter, hms, medfilt_run_odd sp s.x w hw,
        medfilt_run_odd sp s.y w hw, medfilt_run_odd sp s.z w hw]
    · intro m2 hm2
      simp [hms] at hm2
  | some m =>
    have hmn : m ≠ [] := hm m hms
    refine ⟨{ s with mean_signal := some (sp.medfilt m w) }, ?_, hx, hy, hz, ?_⟩
    · simp [apply_median_filter, hms, medfilt_run_odd sp m w hw]
    · intro m2 hm2
      have heq : sp.medfilt m w = m2 := by simpa using hm2
      rw [← heq]
      exact medfilt_ne_nil sp hsp m w hmn

theorem apply_filter_ok_good (sp : Scipy) (fr : ℚ) (ft : FilterType)
    (s : SensorState)
    (h0 : 0 < (1 / 2 : ℚ) / ((1 / 2 : ℚ) * fr))
    (h1 : (1 / 2 : ℚ) / ((1 / 2 : ℚ) * fr) < 1)
    (hg : GoodState s) :
    ∃ s2, apply_filter sp fr ft s = Except.ok s2 ∧ GoodState s2 := by
  obtain ⟨hx, hy, hz, hm⟩ := hg
  cases hms : s.mean_signal with
  | none =>
    refine ⟨{ s with
                x := lfilter
                  (sp.butterCoeffs 6 ((1 / 2 : ℚ) / ((1 / 2 : ℚ) * fr)) ft).1
                  (sp.butterCoeffs 6 ((1 / 2 : ℚ) / ((1 / 2 : ℚ) * fr)) ft).2 s.x
                y := lfilter
                  (sp.butterCoeffs 6 ((1 / 2 : ℚ) / ((1 / 2 : ℚ) * fr)) ft).1
                  (sp.butterCoeffs 6 ((1 / 2 : ℚ) / ((1 / 2 : ℚ) * fr)) ft).2 s.y
                z := lfilter
                  (sp.butterCoeffs 6 ((1 / 2 : ℚ) / ((1 / 2 : ℚ) * fr)) ft).1
                  (sp.butterCoeffs 6 ((1 / 2 : ℚ) / ((1 / 2 : ℚ) * fr)) ft).2 s.z },
      ?_, lfilter_ne_nil _ _ s.x hx, lfilter_ne_nil _ _ s.y hy,
      lfilter_ne_nil _ _ s.z hz, ?_⟩
    · simp [apply_filter, hms, apply_butter_filter_eq_ok sp fr ft s.x h0 h1,
        apply_butter_filter_eq_ok sp fr ft s.y h0 h1,
        apply_butter_filter_eq_ok sp fr ft s.z h0 h1]
    · intro m2 hm2
      simp [hms] at hm2
  | some m =>
    have hmn : m ≠ [] := hm m hms
    refine ⟨{ s with
                mean_signal := some (lfilter
                  (sp.butterCoeffs 6 ((1 / 2 : ℚ) / ((1 / 2 : ℚ) * fr)) ft).1
                  (sp.butterCoeffs 6 ((1 / 2 : ℚ) / ((1 / 2 : ℚ) * fr)) ft).2 m) },
      ?_, hx, hy, hz, ?_⟩
    · simp [apply_filter, hms, apply_butter_filter_eq_ok sp fr ft m h0 h1]
    · intro m2 hm2
      have heq : lfilter (sp.butterCoeffs 6 ((1 / 2 : ℚ) / ((1 / 2 : ℚ) * fr)) ft).1
          (sp.butterCoeffs 6 ((1 / 2 : ℚ) / ((1 / 2 : ℚ) * fr)) ft).2 m = m2 := by
        simpa using hm2
      rw [← heq]
      exact lfilter_ne_nil _ _ m hmn

theorem apply_kalman_filter_ok (q r : ℚ) (s : SensorState)
    (hg : GoodState s) :
    ∃ s2, apply_kalman_filter q r s = Except.ok s2 := by
  obtain ⟨hx, hy, hz, hm⟩ := hg
  cases hms : s.mean_signal with
  | none =>
    exact ⟨{ s with
               x := get_kalman_filter_estimate q r s.x
               y := get_kalman_filter_estimate q r s.y
               z := get_kalman_filter_estimate q r s.z }, by
      simp [apply_kalman_filter, hms, get_kalman_run_ok q r s.x hx,
        get_kalman_run_ok q r s.y hy, get_kalman_run_ok q r s.z hz]⟩
  | some m =>
    exact ⟨{ s with mean_signal := some (get_kalman_filter_estimate q r m) }, by
      simp [apply_kalman_filter, hms, get_kalman_run_ok q r m (hm m hms)]⟩

theorem merge_stage_good (b : Bool) (s : SensorState) (hg : GoodState s) :
    GoodState (merge_stage b s).1 ∧
      (merge_stage b s).2 = (if b then [Stage.merge] else []) := by
  obtain ⟨hx, hy, hz, hm⟩ := hg
  cases b with
  | false => exact ⟨⟨hx, hy, hz, hm⟩, rfl⟩
  | true =>
    refine ⟨⟨hx, hy, hz, ?_⟩, rfl⟩
    intro m hm2
    have heq : get_mean_signal s.x s.y s.z = m := by
      simpa [merge_stage] using hm2
    rw [← heq]
    exact get_mean_signal_ne_nil s.x s.y s.z hx

theorem median_stage_ok (sp : Scipy) (cfg : FilterConfig) (s : SensorState)
    (hmed : ∀ w, cfg.median_filter_window_size = some w → w % 2 = 1)
    (hsp : ∀ (l : List ℚ) (w : ℕ), (sp.medfilt l w).length = l.length)
    (hg : GoodState s) :
    ∃ s2, median_stage sp cfg s =
      Except.ok (s2,
        if cfg.median_filter_window_size.isSome then [Stage.median] else []) ∧
      GoodState s2 := by
  cases homed : cfg.median_filter_window_size with
  | none => exact ⟨s, by simp [median_stage, homed], hg⟩
  | some w =>
    obtain ⟨s2, heq, hg2⟩ := apply_median_filter_ok sp w s (hmed w homed) hsp hg
    exact ⟨s2, by simp [median_stage, homed, heq], hg2⟩

theorem band_stage_ok (sp : Scipy) (cfg : FilterConfig) (s : SensorState)
    (hband : ∀ sr, cfg.sampling_rate = some sr →
      0 < (1 / 2 : ℚ) / ((1 / 2 : ℚ) * UMath_get_frequency sr) ∧
        (1 / 2 : ℚ) / ((1 / 2 : ℚ) * UMath_get_frequency sr) < 1)
    (hg : GoodState s) :
    ∃ s2, band_stage sp cfg s =
      Except.ok (s2,
        if cfg.sampling_rate.isSome ∧ cfg.filter_type.isSome then [Stage.band]
        else []) ∧
      GoodState s2 := by
  cases hsr : cfg.sampling_rate with
  | none =>
    cases hft : cfg.filter_type with
    | none => exact ⟨s, by simp [band_stage, hsr, hft], hg⟩
    | some ft => exact ⟨s, by simp [band_stage, hsr, hft], hg⟩
  | some sr =>
    cases hft : cfg.filter_type with
    | none => exact ⟨s, by simp [band_stage, hsr, hft], hg⟩
    | some ft =>
      obtain ⟨c0, c1⟩ := hband sr hsr
      obtain ⟨s2, heq, hg2⟩ :=
        apply_filter_ok_good sp (UMath_get_frequency sr) ft s c0 c1 hg
      exact ⟨s2, by simp [band_stage, hsr, hft, heq], hg2⟩

/-- C2: a frequency whose normalized cutoff `0.5 / (0.5 * frequency)` is at
least 1 makes the band filter fail with `InvalidFilterParameters` instead of
producing output; for a cutoff strictly inside `(0, 1)` it applies the
6th-order digital Butterworth filter of the requested type at that cutoff
via direct-form recursive filtering (`lfilter`). -/
theorem butter_filter_cutoff (sp : Scipy) (fr : ℚ) (ft : FilterType)
    (data : List ℚ) :
    ((1 : ℚ) ≤ (1 / 2 : ℚ) / ((1 / 2 : ℚ) * fr) →
      apply_butter_filter sp fr ft data =
        Except.error SensorError.invalidFilterParameters) ∧
    (0 < (1 / 2 : ℚ) / ((1 / 2 : ℚ) * fr) →
      (1 / 2 : ℚ) / ((1 / 2 : ℚ) * fr) < 1 →
      apply_butter_filter sp fr ft data =
        Except.ok (lfilter (sp.butterCoeffs 6 ((1 / 2 : ℚ) / ((1 / 2 : ℚ) * fr)) ft).1
          (sp.butterCoeffs 6 ((1 / 2 : ℚ) / ((1 / 2 : ℚ) * fr)) ft).2 data)) := by
  constructor
  · intro h1
    have hno : ¬(0 < (1 / 2 : ℚ) / ((1 / 2 : ℚ) * fr) ∧
        (1 / 2 : ℚ) / ((1 / 2 : ℚ) * fr) < 1) := by
      intro hc
      exact absurd hc.2 (not_lt.mpr h1)
    simp only [apply_butter_filter, butter]
    rw [if_neg hno]
  · exact apply_butter_filter_eq_ok sp fr ft data

/-- Witness for C2: frequency 1 gives cutoff 1 and the error; frequency 4
gives cutoff 1/4 and the filtered output. -/
theorem butter_filter_cutoff_witness :
    apply_butter_filter spId 1 FilterType.lowpass [1, 2] =
      Except.error SensorError.invalidFilterParameters ∧
    apply_butter_filter spId 4 FilterType.highpass [1, 2] =
      Except.ok
        (lfilter (spId.butterCoeffs 6 ((1 / 2 : ℚ) / ((1 / 2 : ℚ) * 4)) FilterType.highpass).1
          (spId.butterCoeffs 6 ((1 / 2 : ℚ) / ((1 / 2 : ℚ) * 4)) FilterType.highpass).2
          [1, 2]) :=
  ⟨(butter_filter_cutoff spId 1 FilterType.lowpass [1, 2]).1 (by norm_num),
    (butter_filter_cutoff spId 4 FilterType.highpass [1, 2]).2 (by norm_num)
      (by norm_num)⟩

/-- C6: one `process` run executes normalize, then merge when requested,
then the median filter exactly when its window size is set, then the band
filter exactly when both sampling rate and filter type are set, then the
Kalman filter; normalize and Kalman always run, and an unset config field
skips its stage without error.  The run succeeds (no stage raises) on a
freshly loaded non-empty stream whenever every configured stage parameter
is valid: a configured median window is odd, a configured band cutoff lies
in (0, 1), and the external median filter preserves length (spec sections
4.3 and 7); an even window or an empty stream aborts the run instead. -/
theorem process_stage_order (sp : Scipy) (cfg : FilterConfig)
    (merge_axis : Bool) (s0 : SensorState)
    (hsp : ∀ (l : List ℚ) (w : ℕ), (sp.medfilt l w).length = l.length)
    (hmed : ∀ w, cfg.median_filter_window_size = some w → w % 2 = 1)
    (hband : ∀ sr, cfg.sampling_rate = some sr →
      0 < (1 / 2 : ℚ) / ((1 / 2 : ℚ) * UMath_get_frequency sr) ∧
        (1 / 2 : ℚ) / ((1 / 2 : ℚ) * UMath_get_frequency sr) < 1)
    (hx : s0.x ≠ []) (hy : s0.y ≠ []) (hz : s0.z ≠ [])
    (hms : s0.mean_signal = none) :
    ∃ res : SensorState × List Stage,
      process sp cfg merge_axis s0 = Except.ok res ∧
      res.2 = [Stage.normalize] ++ (if merge_axis then [Stage.merge] else []) ++
        (if cfg.median_filter_window_size.isSome then [Stage.median] else []) ++
        (if cfg.sampling_rate.isSome ∧ cfg.filter_type.isSome then [Stage.band]
          else []) ++ [Stage.kalman] := by
  have hg1 : GoodState { s0 with
                           x := normalize_axis_map s0.x
                           y := normalize_axis_map s0.y
                           z := normalize_axis_map s0.z } := by
    refine ⟨normalize_axis_map_ne_nil s0.x hx, normalize_axis_map_ne_nil s0.y hy,
      normalize_axis_map_ne_nil s0.z hz, ?_⟩
    intro m hm2
    simp [hms] at hm2
  obtain ⟨hg2, htr2⟩ := merge_stage_good merge_axis _ hg1
  obtain ⟨s3, h3, hg3⟩ := median_stage_ok sp cfg _ hmed hsp hg2
  obtain ⟨s4, h4, hg4⟩ := band_stage_ok sp cfg s3 hband hg3
  obtain ⟨s5, h5⟩ := apply_kalman_filter_ok cfg.process_variance_q
    cfg.measurement_variance_estimate s4 hg4
  refine ⟨(s5,
    [Stage.normalize] ++ (if merge_axis then [Stage.merge] else []) ++
      (if cfg.median_filter_window_size.isSome then [Stage.median] else []) ++
      (if cfg.sampling_rate.isSome ∧ cfg.filter_type.isSome then [Stage.band]
        else []) ++ [Stage.kalman]), ?_, rfl⟩
  simp only [process, normalize, htr2, h3, h4, h5]

/-- A concrete raw stream for evaluating the pipeline theorems. -/
def sRaw : SensorState :=
  { timestamp := [0, 1], x := [1, 2], y := [3, 4], z := [5, 6], mean_signal := none }

/-- Witness for C6 with every stage enabled (sampling rate 4, low-pass,
median window 3, merge requested) on the concrete non-empty raw stream. -/
theorem process_stage_order_witness :
    ∃ res : SensorState × List Stage,
      process spId
          { sampling_rate := some 4, filter_type := some FilterType.lowpass,
            median_filter_window_size := some 3, process_variance_q := 1,
            measurement_variance_estimate := 1 } true sRaw = Except.ok res ∧
      res.2 = [Stage.normalize, Stage.merge, Stage.median, Stage.band, Stage.kalman] :=
  process_stage_order spId
    { sampling_rate := some 4, filter_type := some FilterType.lowpass,
      median_filter_window_size := some 3, process_variance_q := 1,
      measurement_variance_estimate := 1 } true sRaw
    (fun _ _ => rfl)
    (fun w hw => by
      injection hw with h
      subst h
      rfl)
    (fun sr hsr => by
      injection hsr with h
      subst h
      constructor <;> norm_num [UMath_get_frequency])
    (by simp [sRaw]) (by simp [sRaw]) (by simp [sRaw]) rfl

/-- Python and numpy basic slicing `xs[a:b]` on a 1-D array with integer
(possibly negative) bounds: a negative bound counts from the end of the
array, bounds are clamped to `[0, len]`, and the slice is empty when the
effective start is at or past the effective stop. -/
def pySlice {α : Type} (xs : List α) (a b : ℤ) : List α :=
  let n : ℤ := (xs.length : ℤ)
  let start := if a < 0 then max (n + a) 0 else min a n
  let stop := if b < 0 then max (n + b) 0 else min b n
  (xs.take stop.toNat).drop start.toNat

/-- `Sensor.get_data_slice` (lines 173-177): `data[c - w/2 : c]` hstacked
with `data[c : c + w/2]`.  The source is Python 2, so `window_size / 2` is
integer division; the source's default `window_size` is 100 and every call
site uses the default, passed explicitly here. -/
def get_data_slice {α : Type} (data : List α) (center_index : ℕ)
    (window_size : ℕ) : List α :=
  let half : ℤ := ((window_size / 2 : ℕ) : ℤ)
  pySlice data ((center_index : ℤ) - half) (center_index : ℤ) ++
    pySlice data (center_index : ℤ) ((center_index : ℤ) + half)

/-- `(np.abs(self.timestamp - t)).argmin()`: the index of the first minimal
absolute difference. -/
def argminAbs (ts : List ℤ) (t : ℤ) : ℕ :=
  match (ts.foldl
      (fun (acc : ℕ × Option (ℕ × ℕ)) (v : ℤ) =>
        let d := (v - t).natAbs
        match acc.2 with
        | none => (acc.1 + 1, some (acc.1, d))
        | some bd =>
          if d < bd.2 then (acc.1 + 1, some (acc.1, d))
          else (acc.1 + 1, some bd))
      ((0 : ℕ), (none : Option (ℕ × ℕ)))).2 with
  | some bd => bd.1
  | none => 0

/-- One `"{},{},{}"` sample line of the exported block (the Lean rendering
of the rationals stands in for Python float formatting; the claims count
lines and compare the header lines only). -/
def sampleLine (a b c : ℚ) : String :=
  toString a ++ "," ++ toString b ++ "," ++ toString c

/-- `Sensor.label_segmentation` (lines 153-171), modelled as the sequence of
lines written to the output file: for each label, the nearest-timestamp
index is found, the three axes are sliced around it, and one block
`label <tag>`, `x,y,z`, sample lines, blank line is emitted. -/
def label_segmentation (timestamp : List ℤ) (x y z : List ℚ)
    (label_timestamps : List ℤ) (labels : List String) : List String :=
  (List.range label_timestamps.length).flatMap fun i =>
    let c := argminAbs timestamp (label_timestamps.getD i 0)
    let xs := get_data_slice x c 100
    let ys := get_data_slice y c 100
    let zs := get_data_slice z c 100
    ["label " ++ labels.getD i "", "x,y,z"] ++
      ((List.range xs.length).map fun j =>
        sampleLine (xs.getD j 0) (ys.getD j 0) (zs.getD j 0)) ++ [""]

theorem pySlice_left_empty {α : Type} (data : List α) (c : ℕ)
    (hn : 50 ≤ data.length) (hc : c < 50) :
    pySlice data ((c : ℤ) - 50) (c : ℤ) = [] := by
  have h1 : ((c : ℤ) - 50) < 0 := by omega
  have h2 : ¬((c : ℤ) < 0) := by omega
  simp only [pySlice]
  rw [if_pos h1, if_neg h2]
  rw [List.drop_eq_nil_iff, List.length_take]
  omega

theorem pySlice_right_window {α : Type} (data : List α) (c : ℕ) :
    pySlice data (c : ℤ) ((c : ℤ) + 50) = (data.drop c).take 50 := by
  have h1 : ¬((c : ℤ) < 0) := by omega
  have h2 : ¬((c : ℤ) + 50 < 0) := by omega
  have hstart : (min (c : ℤ) (data.length : ℤ)).toNat = min c data.length := by
    omega
  have hstop : (min ((c : ℤ) + 50) (data.length : ℤ)).toNat =
      min (c + 50) data.length := by
    omega
  simp only [pySlice]
  rw [if_neg h1, if_neg h2, hstart, hstop]
  rcases Nat.le_total c data.length with hle | hle
  · rw [Nat.min_eq_left hle, List.drop_take]
    rw [List.take_eq_take]
    simp only [List.length_drop]
    omega
  · have hd1 : data.drop c = [] := List.drop_eq_nil_iff.mpr hle
    have hd2 : data.drop data.length = [] := List.drop_eq_nil_iff.mpr le_rfl
    rw [Nat.min_eq_right hle, List.drop_take, hd1, hd2]
    simp

theorem get_data_slice_early {α : Type} (data : List α) (c : ℕ)
    (hn : 50 ≤ data.length) (hc : c < 50) :
    pySlice data ((c : ℤ) - 50) (c : ℤ) = [] ∧
    get_data_slice data c 100 = (data.drop c).take 50 := by
  have hleft := pySlice_left_empty data c hn hc
  refine ⟨hleft, ?_⟩
  simp only [get_data_slice]
  rw [show ((100 / 2 : ℕ) : ℤ) = 50 from rfl]
  rw [hleft, pySlice_right_window data c]
  simp

/-- C10: for a sequence of length at least 50 and a center index below 50,
the default 100-wide window of `get_data_slice` contains no samples from
before the center: the left slice `data[c-50:c]` is empty because its
negative start wraps past the center, so the result is just
`data[c : c+50]` clipped at the end, of length `min 50 (n - c)` — not
100. -/
theorem get_data_slice_wraps {α : Type} (data : List α) (c : ℕ)
    (hn : 50 ≤ data.length) (hc : c < 50) :
    pySlice data ((c : ℤ) - 50) (c : ℤ) = [] ∧
    get_data_slice data c 100 = (data.drop c).take 50 ∧
    (get_data_slice data c 100).length = min 50 (data.length - c) ∧
    (get_data_slice data c 100).length ≠ 100 := by
  obtain ⟨h1, h2⟩ := get_data_slice_early data c hn hc
  have hlen : (get_data_slice data c 100).length = min 50 (data.length - c) := by
    rw [h2]
    simp
  refine ⟨h1, h2, hlen, ?_⟩
  rw [hlen]
  omega

/-- Witness for C10 on `List.range 60` with center index 40. -/
theorem get_data_slice_wraps_witness :
    50 ≤ (List.range 60).length ∧ 40 < 50 ∧
    (pySlice (List.range 60) (((40 : ℕ) : ℤ) - 50) ((40 : ℕ) : ℤ) = [] ∧
    get_data_slice (List.range 60) 40 100 = ((List.range 60).drop 40).take 50 ∧
    (get_data_slice (List.range 60) 40 100).length = min 50 ((List.range 60).length - 40) ∧
    (get_data_slice (List.range 60) 40 100).length ≠ 100) :=
  ⟨by decide, by decide, get_data_slice_wraps (List.range 60) 40 (by decide) (by decide)⟩

theorem getD_take {α : Type} (d : α) : ∀ (l : List α) (n i : ℕ), i < n →
    (l.take n).getD i d = l.getD i d
  | [], _, _, _ => by simp
  | _ :: _, 0, i, h => absurd h (Nat.not_lt_zero i)
  | a :: l, n + 1, 0, _ => by simp
  | a :: l, n + 1, i + 1, h => by
    simp only [List.take_succ_cons, List.getD_cons_succ]
    exact getD_take d l n i (Nat.lt_of_succ_lt_succ h)

/-- The 101-sample timestamp sequence `60, 61, ..., 160`; the timestamp
closest to 100 sits at index 40. -/
def ts101 : List ℤ := (List.range 101).map fun i => (60 : ℤ) + i

/-- A 101-sample axis `0, 1, ..., 100`. -/
def qs101 : List ℚ := (List.range 101).map fun i => (i : ℚ)

/-- C4 counterexample: on a 101-sample stream whose nearest timestamp to 100
is at index 40, the exported block has 50 sample lines, not the 100 the
claim requires: the output is 53 lines (label line, header, 50 samples,
blank), not 103. -/
theorem label_segmentation_cex :
    (label_segmentation ts101 qs101 qs101 qs101 [100] ["tap"]).length = 53 ∧
    (label_segmentation ts101 qs101 qs101 qs101 [100] ["tap"]).getD 0 "" = "label tap" ∧
    (label_segmentation ts101 qs101 qs101 qs101 [100] ["tap"]).getD 1 "" = "x,y,z" ∧
    (label_segmentation ts101 qs101 qs101 qs101 [100] ["tap"]).getD 52 "" = "" ∧
    (label_segmentation ts101 qs101 qs101 qs101 [100] ["tap"]).length ≠ 2 + 100 + 1 := by
  refine ⟨?_, ?_, ?_, ?_, ?_⟩ <;> decide

/-- C4 amended: for a stream with more than 100 samples whose sample index
closest to timestamp 100 is 40, `label_segmentation` with
`label_timestamps = [100]`, `labels = ["tap"]` writes exactly one block that
begins with `label tap`, then the header `x,y,z`, then exactly 50 sample
lines (the Python-2 window halving gives 50 per side and the left slice is
empty), then a blank line. -/
theorem label_segmentation_window (ts : List ℤ) (x y z : List ℚ)
    (hlen : 100 < ts.length) (hx : x.length = ts.length)
    (hy : y.length = ts.length) (hz : z.length = ts.length)
    (hc : argminAbs ts 100 = 40) :
    label_segmentation ts x y z [100] ["tap"] =
      ["label tap", "x,y,z"] ++
        ((List.range 50).map fun j =>
          sampleLine ((x.drop 40).getD j 0) ((y.drop 40).getD j 0)
            ((z.drop 40).getD j 0)) ++ [""] := by
  have hxs := (get_data_slice_early x 40 (by omega) (by omega)).2
  have hys := (get_data_slice_early y 40 (by omega) (by omega)).2
  have hzs := (get_data_slice_early z 40 (by omega) (by omega)).2
  simp only [label_segmentation]
  rw [show List.range ([(100 : ℤ)] : List ℤ).length = [0] from rfl]
  simp only [List.flatMap_cons, List.flatMap_nil, List.append_nil,
    List.getD_cons_zero]
  rw [hc, hxs, hys, hzs]
  have hlen50 : ((x.drop 40).take 50).length = 50 := by
    simp
    omega
  rw [hlen50]
  have hmap : ((List.range 50).map fun j =>
      sampleLine (((x.drop 40).take 50).getD j 0) (((y.drop 40).take 50).getD j 0)
        (((z.drop 40).take 50).getD j 0)) =
      ((List.range 50).map fun j =>
        sampleLine ((x.drop 40).getD j 0) ((y.drop 40).getD j 0)
          ((z.drop 40).getD j 0)) := by
    apply List.map_congr_left
    intro j hj
    have hj50 : j < 50 := List.mem_range.mp hj
    rw [getD_take 0 (x.drop 40) 50 j hj50, getD_take 0 (y.drop 40) 50 j hj50,
      getD_take 0 (z.drop 40) 50 j hj50]
  rw [hmap]
  rfl

/-- Witness for the amended C4 on the concrete 101-sample stream. -/
theorem label_segmentation_window_witness :
    100 < ts101.length ∧ qs101.length = ts101.length ∧
    argminAbs ts101 100 = 40 ∧
    label_segmentation ts101 qs101 qs101 qs101 [100] ["tap"] =
      ["label tap", "x,y,z"] ++
        ((List.range 50).map fun j =>
          sampleLine ((qs101.drop 40).getD j 0) ((qs101.drop 40).getD j 0)
            ((qs101.drop 40).getD j 0)) ++ [""] :=
  ⟨by decide, by decide, by decide,
    label_segmentation_window ts101 qs101 qs101 qs101 (by decide) (by decide)
      (by decide) (by decide) (by decide)⟩

end DeepSpying
